import Mathlib

/-!
Shallow embedding of the proxy/gateway core of `unified-server.js`
(build2api): the credential pool round-robin, the rotation state machine
of `RequestHandler`, the per-request message queue, the connection
registry with its reconnect grace window, the chat-to-native request
translation, and the API-key configuration and middleware.

Conventions: JavaScript numbers that are used as counters are modelled
as `Nat` (the only decrement in the source is immediately clamped at
zero, which matches `Nat` subtraction); asynchronous session /
network effects that are external to this file (Playwright calls,
WebSocket sends, JSON parsing of upstream bodies) are supplied as
boolean/opaque environment inputs, and the code paths that depend on
them are reproduced branch by branch.
-/

namespace Build2api

/-! String utilities.  The JavaScript string primitives the source
relies on (`split`, `trim`, `startsWith`, `slice`/`substring`, `join`)
are modelled by structural recursion over the character list of a
`String`, so that every definition evaluates by kernel reduction. -/

/-- Fuel-driven splitter over character lists: splits at every
(leftmost, non-overlapping) occurrence of the non-empty separator,
like JavaScript `String.prototype.split` with a string argument.  The
fuel is always called with more than the input length, so the zero
case is unreachable. -/
def jsSplitFuel (sep : List Char) : Nat → List Char → List Char → List (List Char)
  | 0, rest, acc => [acc.reverse ++ rest]
  | fuel + 1, l, acc =>
    match l with
    | [] => [acc.reverse]
    | c :: rest =>
      if sep.isPrefixOf (c :: rest) then
        acc.reverse :: jsSplitFuel sep fuel (List.drop sep.length (c :: rest)) []
      else
        jsSplitFuel sep fuel rest (c :: acc)

/-- JavaScript `s.split(sep)` for a non-empty string separator (every
separator used by the source is non-empty); `"".split(sep) = [""]`. -/
def jsSplit (s sep : String) : List String :=
  if sep.data.isEmpty then [s]
  else (jsSplitFuel sep.data (s.data.length + 1) s.data []).map (fun l => ⟨l⟩)

/-- JavaScript `s.trim()` (restricted to ASCII whitespace): drop
whitespace from both ends. -/
def jsTrim (s : String) : String :=
  ⟨((s.data.dropWhile Char.isWhitespace).reverse.dropWhile Char.isWhitespace).reverse⟩

/-- JavaScript `s.startsWith(p)`. -/
def jsStartsWith (s p : String) : Bool :=
  p.data.isPrefixOf s.data

/-- JavaScript `s.substring(n)` on well-formed input: drop the first
`n` characters. -/
def jsDropChars (s : String) (n : Nat) : String :=
  ⟨s.data.drop n⟩

/-- Character membership in a string. -/
def containsChar (s : String) (c : Char) : Bool :=
  s.data.contains c

/-- JavaScript `Array.prototype.join(sep)`. -/
def jsJoin (sep : String) : List String → String
  | [] => ""
  | [x] => x
  | x :: y :: rest => x ++ sep ++ jsJoin sep (y :: rest)

/-- Concatenation of a list of strings (the `fullBody += data`
accumulation pattern of the source). -/
def strConcatAll (l : List String) : String :=
  l.foldl (fun a b => a ++ b) ""

/-- Mutable rotation/concurrency state owned by `RequestHandler`
(`usageCount`, `activeRequestCount`, `pendingSwitch`, `isAuthSwitching`,
`isSystemBusy`) together with `BrowserManager.currentAuthIndex`, which
the handler reads through its `currentAuthIndex` getter. -/
structure HandlerState where
  usageCount : Nat
  activeRequestCount : Nat
  pendingSwitch : Bool
  isAuthSwitching : Bool
  isSystemBusy : Bool
  currentAuthIndex : Nat
deriving DecidableEq, Repr

/-- JavaScript `Array.prototype.indexOf` restricted to `Nat` lists:
returns the position of the first occurrence of `x`, counting from `i`,
or `none` when absent (the source compares the result with `-1`). -/
def indexOfFrom : List Nat → Nat → Nat → Option Nat
  | [], _, _ => none
  | a :: rest, x, i => if a = x then some i else indexOfFrom rest x (i + 1)

/-- Model of `RequestHandler._getNextAuthIndex` (unified-server.js:826-837):
round-robin over `authSource.availableIndices`; `null` when the list is
empty; the first element when the current index is not in the list;
otherwise the element after the current one, wrapping modularly. -/
def getNextAuthIndex (available : List Nat) (current : Nat) : Option Nat :=
  if available.length = 0 then none
  else
    match indexOfFrom available current 0 with
    | none => available.head?
    | some i => available.get? ((i + 1) % available.length)

/-- Outcome of `RequestHandler._switchToNextAuth`: the early return when
a switch is already running, the success object `{success:true}`, the
rolled-back object `{success:false, fallback:true}`, and the fatal case
where the fallback `launchOrSwitchContext` call also throws. -/
inductive SwitchOutcome
  | success (newIndex : Nat)
  | alreadyInProgress
  | rolledBack (newIndex : Nat)
  | fatal
deriving DecidableEq, Repr

/-- Session-establishment attempts performed by `_switchToNextAuth`, in
program order: `browserManager.switchAccount(nextAuthIndex)` and, on its
failure, `browserManager.launchOrSwitchContext(previousAuthIndex)`. -/
inductive AuthAction
  | attemptSession (target : Option Nat)
  | attemptFallbackSession (target : Nat)
deriving DecidableEq, Repr

/-- Environment for one rotation attempt: whether
`switchAccount(nextAuthIndex)` resolves, and whether the fallback
`launchOrSwitchContext(previousAuthIndex)` resolves.  These calls drive
an external browser session and are inputs of the model. -/
structure SwitchEnv where
  switchOk : Bool
  fallbackOk : Bool
deriving DecidableEq, Repr

/-- Model of `RequestHandler._switchToNextAuth` (unified-server.js:853-907).
Guarded by `isAuthSwitching` (single flight).  On success
`currentAuthIndex` becomes the target (set inside
`launchOrSwitchContext` at line 481) and `usageCount` resets; on switch
failure the previous credential is re-established, resetting
`usageCount` on fallback success; if the fallback also throws, the
error propagates (`fatal`) with `usageCount` untouched.  The `finally`
block clears `isAuthSwitching`/`isSystemBusy` on every path.  A `none`
target (empty pool) makes `switchAccount` throw just like a failed
session establishment. -/
def switchToNextAuth (avail : List Nat) (env : SwitchEnv) (s : HandlerState) :
    SwitchOutcome × HandlerState × List AuthAction :=
  if s.isAuthSwitching then (.alreadyInProgress, s, [])
  else
    let prev := s.currentAuthIndex
    let next := getNextAuthIndex avail s.currentAuthIndex
    match next, env.switchOk with
    | some n, true =>
      (.success n,
        { s with currentAuthIndex := n, usageCount := 0,
                 isAuthSwitching := false, isSystemBusy := false },
        [.attemptSession next])
    | _, _ =>
      if env.fallbackOk then
        (.rolledBack prev,
          { s with currentAuthIndex := prev, usageCount := 0,
                   isAuthSwitching := false, isSystemBusy := false },
          [.attemptSession next, .attemptFallbackSession prev])
      else
        (.fatal,
          { s with isAuthSwitching := false, isSystemBusy := false },
          [.attemptSession next, .attemptFallbackSession prev])

/-- Model of `RequestHandler._tryExecutePendingSwitch` (unified-server.js:840-851):
runs `_switchToNextAuth` only when `pendingSwitch` is set, no request is
active, and no switch is already running; its `finally` clears
`pendingSwitch`.  The first component counts the rotation executions
performed by this call. -/
def tryExecutePendingSwitch (avail : List Nat) (env : SwitchEnv) (s : HandlerState) :
    Nat × HandlerState :=
  if s.pendingSwitch && s.activeRequestCount == 0 && !s.isAuthSwitching then
    let s' := (switchToNextAuth avail env s).2.1
    (1, { s' with pendingSwitch := false })
  else (0, s)

/-- The `finally` block shared by `processRequest` (unified-server.js:
1088-1095) and `processOpenAIRequest` (1296-1306): decrement
`activeRequestCount`, clamp at zero, then try the deferred switch.
`Nat` subtraction is exactly the decrement-then-clamp of the source. -/
def completeRequest (avail : List Nat) (env : SwitchEnv) (s : HandlerState) :
    Nat × HandlerState :=
  tryExecutePendingSwitch avail env
    { s with activeRequestCount := s.activeRequestCount - 1 }

/-- Definitive admission outcomes of the two proxied-request handlers:
the 503 "rotating" rejection, the 503 rejections of the
disconnected/busy and recovery-failure paths, the 503 busy rejection,
the 400 rejection of a failed chat-dialect translation, and admission. -/
inductive AdmitOutcome
  | rejectRotating
  | rejectBusyDisconnected
  | rejectRecoveryFailed
  | rejectBusy
  | rejectBadRequest
  | admitted
deriving DecidableEq, Repr

/-- Per-request admission environment: whether
`connectionRegistry.hasActiveConnections()` holds, whether the one-shot
recovery `launchOrSwitchContext(currentAuthIndex)` resolves, and whether
the request is a generative POST (`generateContent` /
`streamGenerateContent` in the path). -/
structure AdmitEnv where
  hasActiveConnections : Bool
  recoverySucceeds : Bool
  isGenerative : Bool
deriving DecidableEq, Repr

/-- Result of running the pre-dispatch phase of a handler: the
definitive outcome, the state at that outcome, and the ordered
intermediate states reached after each mutation of the shared handler
state on the way there. -/
structure AdmitResult where
  outcome : AdmitOutcome
  final : HandlerState
  trace : List HandlerState
deriving DecidableEq, Repr

/-- Shared tail of `processRequest` admission: the second
`isSystemBusy` rejection (unified-server.js:1034-1038) followed by the
usage accounting and threshold check (1046-1055). -/
def processRequestAdmissionTail (switchOnUses : Nat) (env : AdmitEnv)
    (cur : HandlerState) (tr : List HandlerState) : AdmitResult :=
  if cur.isSystemBusy then
    let s4 := { cur with activeRequestCount := cur.activeRequestCount - 1 }
    ⟨.rejectBusy, s4, tr ++ [s4]⟩
  else if switchOnUses > 0 && env.isGenerative && !cur.pendingSwitch then
    let u := cur.usageCount + 1
    let s5 := { cur with usageCount := u,
                         pendingSwitch := if switchOnUses ≤ u then true else cur.pendingSwitch }
    ⟨.admitted, s5, tr ++ [s5]⟩
  else
    ⟨.admitted, cur, tr⟩

/-- Pre-dispatch phase of `RequestHandler.processRequest`
(unified-server.js:991-1055), statement by statement: the
`pendingSwitch || isAuthSwitching` rejection; the
`activeRequestCount++`; the crash-recovery block behind
`hasActiveConnections()` (busy rejection, or one-shot recovery whose
failure decrements the count and rejects, with `isSystemBusy` toggled
around the attempt); the second busy rejection; and the generative
usage accounting that may set `pendingSwitch`. -/
def processRequestAdmission (switchOnUses : Nat) (env : AdmitEnv)
    (s : HandlerState) : AdmitResult :=
  if s.pendingSwitch || s.isAuthSwitching then
    ⟨.rejectRotating, s, []⟩
  else
    let s1 := { s with activeRequestCount := s.activeRequestCount + 1 }
    if !env.hasActiveConnections then
      if s1.isSystemBusy then
        let s2 := { s1 with activeRequestCount := s1.activeRequestCount - 1 }
        ⟨.rejectBusyDisconnected, s2, [s1, s2]⟩
      else
        let s2 := { s1 with isSystemBusy := true }
        if !env.recoverySucceeds then
          let s3 := { s2 with activeRequestCount := s2.activeRequestCount - 1,
                              isSystemBusy := false }
          ⟨.rejectRecoveryFailed, s3, [s1, s2, s3]⟩
        else
          let s3 := { s2 with isSystemBusy := false }
          processRequestAdmissionTail switchOnUses env s3 [s1, s2, s3]
    else
      processRequestAdmissionTail switchOnUses env s1 [s1]

/-- Pre-dispatch phase of `RequestHandler.processOpenAIRequest`
(unified-server.js:1099-1135): the `pendingSwitch || isAuthSwitching`
rejection, the `activeRequestCount++`, the unconditional usage
accounting, and the 400 rejection on a failed body translation, which
decrements `activeRequestCount` but leaves `usageCount` as counted. -/
def processOpenAIAdmission (switchOnUses : Nat) (translationOk : Bool)
    (s : HandlerState) : AdmitResult :=
  if s.pendingSwitch || s.isAuthSwitching then
    ⟨.rejectRotating, s, []⟩
  else
    let s1 := { s with activeRequestCount := s.activeRequestCount + 1 }
    let s2 :=
      if switchOnUses > 0 && !s1.pendingSwitch then
        let u := s1.usageCount + 1
        { s1 with usageCount := u,
                  pendingSwitch := if switchOnUses ≤ u then true else s1.pendingSwitch }
      else s1
    if !translationOk then
      let s3 := { s2 with activeRequestCount := s2.activeRequestCount - 1 }
      ⟨.rejectBadRequest, s3, [s1, s2, s3]⟩
    else
      ⟨.admitted, s2, [s1, s2]⟩

/-- Client response object as the handlers see it: whether HTTP headers
have been flushed and whether the response has been ended. -/
structure ResState where
  headersSent : Bool
  writableEnded : Bool
deriving DecidableEq, Repr

/-- Observable actions of `_handleRequestFailureAndSwitch`, in program
order: `_sendErrorResponse(res, 503, …)`, `_sendErrorChunkToClient`,
`res.end()`, and the `_switchToNextAuth()` call. -/
inductive FailAction
  | respond503Body
  | writeErrorChunk
  | endStream
  | rotateCredential
deriving DecidableEq, Repr

/-- Model of `RequestHandler._sendErrorResponse` (unified-server.js:1790-1804):
a no-op when headers were already sent; otherwise `res.send` flushes the
headers and ends the response. -/
def sendErrorResponse (res : ResState) : ResState × List FailAction :=
  if !res.headersSent then (⟨true, true⟩, [.respond503Body])
  else (res, [])

/-- Model of `RequestHandler._handleRequestFailureAndSwitch`
(unified-server.js:949-988).  When the upstream status is in
`config.immediateSwitchStatusCodes`: first answer the client (a 503
JSON body when headers are unsent, else an in-stream error chunk when
the stream is still writable, then `res.end()`), and only then run
`_switchToNextAuth`, returning `true`.  Otherwise return `false` with
no action. -/
def handleRequestFailureAndSwitch (codes : List Nat) (avail : List Nat)
    (env : SwitchEnv) (status : Nat) (res : ResState) (s : HandlerState) :
    Bool × List FailAction × ResState × HandlerState :=
  if status ∈ codes then
    let step :=
      if !res.headersSent then
        let (r1, a1) := sendErrorResponse res
        if !r1.writableEnded then ({ r1 with writableEnded := true }, a1 ++ [.endStream])
        else (r1, a1)
      else if !res.writableEnded then
        ({ res with writableEnded := true }, [.writeErrorChunk, .endStream])
      else (res, [])
    let s' := (switchToNextAuth avail env s).2.1
    (true, step.2 ++ [.rotateCredential], step.1, s')
  else (false, [], res, s)

/-- The three error values of `MessageQueue`: the "Queue closed"
rejection handed to waiting resolvers by `close()`, the "Queue timeout"
rejection of an expired `dequeue` wait, and the "Queue is closed" throw
of a `dequeue` call made on an already-closed queue. -/
inductive QueueErr
  | queueClosed
  | queueTimeout
  | queueIsClosed
deriving DecidableEq, Repr

/-- Model of `MessageQueue` (unified-server.js:645-692): a FIFO of buffered
messages, a FIFO of waiting resolvers (identified here by resolver
ids), and the `closed` flag. -/
structure MessageQueue (α : Type) where
  messages : List α
  waitingResolvers : List Nat
  closed : Bool
deriving DecidableEq, Repr

/-- Model of `MessageQueue.close` (unified-server.js:683-691): set `closed`,
reject every waiting resolver with "Queue closed" (their timeout timers
are cleared), and drop buffered messages.  The second component lists
the rejections issued. -/
def MessageQueue.close (q : MessageQueue α) : MessageQueue α × List (Nat × QueueErr) :=
  (⟨[], [], true⟩, q.waitingResolvers.map (fun rid => (rid, .queueClosed)))

/-- Synchronous part of one `MessageQueue.dequeue` call. -/
inductive DequeueStep (α : Type)
  | failImmediately (e : QueueErr)
  | delivered (msg : α) (rest : MessageQueue α)
  | waiting (rid : Nat) (rest : MessageQueue α)
deriving DecidableEq, Repr

/-- Model of `MessageQueue.dequeue` (unified-server.js:662-682), up to its first
suspension: throw "Queue is closed" when closed, deliver a buffered
message when available, otherwise register a fresh waiting resolver. -/
def MessageQueue.dequeue (q : MessageQueue α) (freshRid : Nat) : DequeueStep α :=
  if q.closed then .failImmediately .queueIsClosed
  else
    match q.messages with
    | m :: rest => .delivered m { q with messages := rest }
    | [] => .waiting freshRid { q with waitingResolvers := q.waitingResolvers ++ [freshRid] }

/-- Model of `MessageQueue.enqueue` (unified-server.js:653-661): dropped when
closed; handed directly to the first waiting resolver when one exists;
otherwise buffered. -/
def MessageQueue.enqueue (q : MessageQueue α) (m : α) :
    MessageQueue α × Option (Nat × α) :=
  if q.closed then (q, none)
  else
    match q.waitingResolvers with
    | r :: rest => ({ q with waitingResolvers := rest }, some (r, m))
    | [] => ({ q with messages := q.messages ++ [m] }, none)

/-- The timeout callback of a pending `dequeue` (unified-server.js:
673-679): if the resolver is still registered, remove it and reject it
with "Queue timeout". -/
def MessageQueue.fireTimeout (q : MessageQueue α) (rid : Nat) :
    MessageQueue α × Option (Nat × QueueErr) :=
  if rid ∈ q.waitingResolvers then
    ({ q with waitingResolvers := q.waitingResolvers.filter (fun r => !(r == rid)) },
      some (rid, .queueTimeout))
  else (q, none)

/-- Model of `ConnectionRegistry` (unified-server.js:694-792): the set of live
backchannel connections (modelled by its size), the per-request message
queue table, and the armed reconnect grace timer, carried as the
absolute time at which it fires. -/
structure ConnectionRegistry (α : Type) where
  connections : Nat
  messageQueues : List (Nat × MessageQueue α)
  graceDeadline : Option Nat
deriving DecidableEq, Repr

/-- Model of `ConnectionRegistry.addConnection` (unified-server.js:702-721):
clears any pending reconnect grace timer and registers the connection;
queues are untouched. -/
def ConnectionRegistry.addConnection (r : ConnectionRegistry α) : ConnectionRegistry α :=
  { r with graceDeadline := none, connections := r.connections + 1 }

/-- Model of `ConnectionRegistry._removeConnection` (unified-server.js:723-738):
drops the connection and arms the 5000 ms reconnect grace timer,
relative to the disconnect time `now`. -/
def ConnectionRegistry.removeConnection (r : ConnectionRegistry α) (now : Nat) :
    ConnectionRegistry α :=
  { r with connections := r.connections - 1, graceDeadline := some (now + 5000) }

/-- Expiry of the reconnect grace timer (the `setTimeout` body at
unified-server.js:728-735), firing at time `now` only when armed with a
deadline that has been reached: every queue in the table is closed (its
waiters rejected with "Queue closed"), the table is cleared, and the
`connectionLost` signal (third component) is emitted. -/
def ConnectionRegistry.fireGraceTimer (r : ConnectionRegistry α) (now : Nat) :
    ConnectionRegistry α × List (Nat × Nat × QueueErr) × Bool :=
  match r.graceDeadline with
  | some d =>
    if d ≤ now then
      ({ r with messageQueues := [], graceDeadline := none },
        r.messageQueues.flatMap
          (fun iq => (iq.2.close).2.map (fun p => (iq.1, p.1, p.2))),
        true)
    else (r, [], false)
  | none => (r, [], false)

/-- One element of a chat-dialect `content` array: a `{type:"text"}`
part, a `{type:"image_url", image_url:{url}}` part, or a part of any
other type (which the translator skips). -/
inductive OpenAIPart
  | textPart (s : String)
  | imageUrlPart (url : String)
  | otherPart
deriving DecidableEq, Repr

/-- Chat-dialect message content: either a plain string or an ordered
array of parts. -/
inductive OpenAIContent
  | str (s : String)
  | parts (l : List OpenAIPart)
deriving DecidableEq, Repr

/-- One chat-dialect message. -/
structure OpenAIMessage where
  role : String
  content : OpenAIContent
deriving DecidableEq, Repr

/-- JavaScript string coercion applied when a non-string `content`
reaches `systemMessages.map(msg => msg.content).join("\n")`: an array
of part objects stringifies element-wise to "[object Object]" joined by
commas. -/
def jsContentToString : OpenAIContent → String
  | .str s => s
  | .parts l => jsJoin "," (l.map (fun _ => "[object Object]"))

/-- A native-dialect part produced by the translator. -/
inductive GooglePart
  | text (s : String)
  | inlineData (mimeType : String) (data : String)
deriving DecidableEq, Repr

/-- A native-dialect content entry. -/
structure GoogleContent where
  role : String
  parts : List GooglePart
deriving DecidableEq, Repr

/-- One `safetySettings` entry. -/
structure SafetySetting where
  category : String
  threshold : String
deriving DecidableEq, Repr

/-- The translated native-dialect request, restricted to the fields the
translation constructs structurally: `contents`, the optional
`systemInstruction.parts`, the `thinkingConfig` injection flag, and
`safetySettings`.  (The numeric generation parameters map 1:1 by name
from the chat body and carry no logic.) -/
structure GoogleRequest where
  contents : List GoogleContent
  systemInstruction : Option (List GooglePart)
  thinkingIncluded : Bool
  safetySettings : List SafetySetting
deriving DecidableEq, Repr

/-- The regex `^data:(image\/.*?);base64,(.*)$` applied to an
`image_url` (unified-server.js:1837): the lazy group takes the segment
up to the first ";base64,", so the split at the first occurrence after
"data:" gives the mime type, which must begin with "image/", and the
remainder is the payload.  The dot of the regex does not cross line
terminators, hence the newline checks. -/
def parseImageDataUrl (url : String) : Option (String × String) :=
  if jsStartsWith url "data:" then
    match jsSplit (jsDropChars url 5) ";base64," with
    | mime :: rest0 :: rest =>
      let payload := jsJoin ";base64," (rest0 :: rest)
      if jsStartsWith mime "image/" && !containsChar mime '\n' && !containsChar mime '\r'
          && !containsChar payload '\n' && !containsChar payload '\r' then
        some (mime, payload)
      else none
    | _ => none
  else none

/-- Translation of one chat-dialect part into the `googleParts` array
(unified-server.js:1832-1847): text passes through, image parts are
decoded when the data-URL regex matches, everything else is skipped. -/
def translatePart : OpenAIPart → Option GooglePart
  | .textPart s => some (.text s)
  | .imageUrlPart u => (parseImageDataUrl u).map (fun p => .inlineData p.1 p.2)
  | .otherPart => none

/-- Translation of one message body (unified-server.js:1829-1848):
a string becomes a single text part; an array is translated
element-wise with non-matching parts dropped. -/
def translateContent : OpenAIContent → List GooglePart
  | .str s => [.text s]
  | .parts l => l.filterMap translatePart

/-- Model of `RequestHandler._translateOpenAIToGoogle`
(unified-server.js:1806-1887), restricted to the message and safety
logic: system messages are newline-joined into `systemInstruction`;
the remaining messages are translated in order with role
`"assistant" ↦ "model"` and every other role ↦ `"user"`; safety
thresholds are hard-coded to `BLOCK_NONE` for the four categories;
`generationConfig.thinkingConfig` is injected iff reasoning is
enabled. -/
def translateOpenAIToGoogle (enableReasoning : Bool)
    (messages : List OpenAIMessage) : GoogleRequest :=
  let systemMessages := messages.filter (fun m => m.role == "system")
  let sysInstruction :=
    if systemMessages.length > 0 then
      some [GooglePart.text
        (jsJoin "\n" (systemMessages.map (fun m => jsContentToString m.content)))]
    else none
  let conversationMessages := messages.filter (fun m => !(m.role == "system"))
  let googleContents := conversationMessages.map (fun m =>
    { role := if m.role = "assistant" then "model" else "user",
      parts := translateContent m.content : GoogleContent })
  { contents := googleContents,
    systemInstruction := sysInstruction,
    thinkingIncluded := enableReasoning,
    safetySettings := [
      ⟨"HARM_CATEGORY_HARASSMENT", "BLOCK_NONE"⟩,
      ⟨"HARM_CATEGORY_HATE_SPEECH", "BLOCK_NONE"⟩,
      ⟨"HARM_CATEGORY_SEXUALLY_EXPLICIT", "BLOCK_NONE"⟩,
      ⟨"HARM_CATEGORY_DANGEROUS_CONTENT", "BLOCK_NONE"⟩] }

/-- Upstream environment of one `processModelListRequest` run: whether
a backchannel connection exists for `_forwardRequest`, whether the
first event is an `error`, whether a body wait timed out, and the
`data` payloads of the received chunk events in order. -/
structure ModelListEnv where
  hasConnection : Bool
  headerIsError : Bool
  drainTimedOut : Bool
  chunks : List String
deriving DecidableEq, Repr

/-- Response of the model-list handler: a 200 listing of ids, or the
500 "Failed to fetch model list." error of the catch block. -/
inductive ModelListResponse
  | ok (ids : List String)
  | failure
deriving DecidableEq, Repr

/-- JavaScript `String.prototype.replace` with a string pattern:
replaces only the first occurrence, here with the empty string. -/
def removeFirstOccurrence (s pat : String) : String :=
  match jsSplit s pat with
  | seg0 :: seg1 :: rest => seg0 ++ jsJoin pat (seg1 :: rest)
  | _ => s

/-- Model of `RequestHandler.processModelListRequest`
(unified-server.js:1311-1378).  `parseModels` stands for
`JSON.parse(fullBody).models || []` (`none` = parse failure, handled
as an empty listing); every thrown error (no connection, upstream
error event, drain timeout) lands in the catch block and produces the
500 response.  The handler state is threaded through untouched: the
function body contains no mutation of any `RequestHandler` counter or
flag and no admission check. -/
def processModelListRequest (parseModels : String → Option (List String))
    (env : ModelListEnv) (s : HandlerState) : HandlerState × ModelListResponse :=
  if !env.hasConnection then (s, .failure)
  else if env.headerIsError then (s, .failure)
  else if env.drainTimedOut then (s, .failure)
  else
    let fullBody := strConcatAll env.chunks
    let googleModels := (parseModels fullBody).getD []
    (s, .ok (googleModels.map (fun name => removeFirstOccurrence name "models/")))

/-- API-key loading in `ProxyServerSystem._loadConfiguration`
(unified-server.js:2039-2081): split `API_KEYS` on commas, trim each
entry, drop empties; when nothing remains (or the variable is unset),
fall back to the single default key "123456".  The boolean reports
whether the configured ("自定义") source was used. -/
def loadApiKeys (apiKeysEnv : Option String) : List String × Bool :=
  let raw := match apiKeysEnv with
    | some s => jsSplit s ","
    | none => []
  let cleaned := (raw.map jsTrim).filter (fun k => !(k == ""))
  if cleaned.length > 0 then (cleaned, true)
  else (["123456"], false)

/-- The request fields the auth middleware consults, each `none` when
the header/query value is absent (or empty, hence falsy). -/
structure AuthReq where
  xGoogApiKey : Option String
  authorization : Option String
  xApiKey : Option String
  queryKey : Option String
deriving DecidableEq, Repr

/-- Client-key extraction order of `_createAuthMiddleware`
(unified-server.js:2177-2189): `x-goog-api-key`, then a
`Bearer `-prefixed `authorization`, then `x-api-key`, then the `key`
query parameter. -/
def extractClientKey (r : AuthReq) : Option String :=
  match r.xGoogApiKey with
  | some k => some k
  | none =>
    match r.authorization with
    | some a =>
      if jsStartsWith a "Bearer " then some (jsDropChars a 7)
      else
        match r.xApiKey with
        | some k => some k
        | none => r.queryKey
    | none =>
      match r.xApiKey with
      | some k => some k
      | none => r.queryKey

/-- Middleware verdicts: the `next()` call when no key is configured,
the `next()` call on a matching key, and the 401 rejection. -/
inductive AuthVerdict
  | passThroughNoKeys
  | allowed
  | denied401
deriving DecidableEq, Repr

/-- Model of `ProxyServerSystem._createAuthMiddleware`
(unified-server.js:2167-2212): skip the check when the key list is
empty; otherwise admit exactly the requests presenting a configured
key on one of the accepted channels, and answer 401 to the rest. -/
def authMiddleware (serverApiKeys : List String) (r : AuthReq) : AuthVerdict :=
  if serverApiKeys.length = 0 then .passThroughNoKeys
  else
    match extractClientKey r with
    | some k => if k ∈ serverApiKeys then .allowed else .denied401
    | none => .denied401

/-! ## Theorems -/

/-- Helper: a JavaScript `indexOf` search for an absent element yields
`none` (the source sees `-1`). -/
theorem indexOfFrom_eq_none {l : List Nat} {x : Nat} (h : x ∉ l) :
    ∀ i, indexOfFrom l x i = none := by
  induction l with
  | nil => intro i; rfl
  | cons a rest ih =>
    intro i
    rw [List.mem_cons, not_or] at h
    simp only [indexOfFrom, if_neg (Ne.symm h.1)]
    exact ih h.2 (i + 1)

/-- C4: `_getNextAuthIndex` is round-robin over the valid sorted index
list: over the eligible set {1,3,7} it maps 1↦3, 3↦7, 7↦1, any index
outside the set to 1; and in general an `afterIndex` absent from a
non-empty valid list yields the first valid index. -/
theorem next_auth_index_round_robin :
    getNextAuthIndex [1, 3, 7] 1 = some 3 ∧
    getNextAuthIndex [1, 3, 7] 3 = some 7 ∧
    getNextAuthIndex [1, 3, 7] 7 = some 1 ∧
    (∀ a : Nat, a ∉ ([1, 3, 7] : List Nat) → getNextAuthIndex [1, 3, 7] a = some 1) ∧
    (∀ (l : List Nat) (a : Nat), l ≠ [] → a ∉ l → getNextAuthIndex l a = l.head?) := by
  refine ⟨by decide, by decide, by decide, ?_, ?_⟩
  · intro a ha
    show getNextAuthIndex [1, 3, 7] a = some 1
    unfold getNextAuthIndex
    rw [indexOfFrom_eq_none ha 0]
    rfl
  · intro l a hne hna
    unfold getNextAuthIndex
    rw [indexOfFrom_eq_none hna 0]
    simp [List.length_eq_zero, hne]

/-- Witness for the hypotheses of `next_auth_index_round_robin` at the
concrete inputs 5 ∉ {1,3,7} and 9 ∉ {2,4}. -/
theorem next_auth_index_round_robin_witness :
    getNextAuthIndex [1, 3, 7] 5 = some 1 ∧ getNextAuthIndex [2, 4] 9 = some 2 :=
  ⟨next_auth_index_round_robin.2.2.2.1 5 (by decide),
   next_auth_index_round_robin.2.2.2.2 [2, 4] 9 (by decide) (by decide)⟩

/-- C1: while `pendingSwitch` is set and requests are active, the
deferred-switch routine performs no rotation and changes nothing; when
the last active request completes with `pendingSwitch` still set and no
switch already running, exactly one rotation is executed, after which
`pendingSwitch` is cleared so a further attempt performs no rotation. -/
theorem graceful_switch_deferred_until_drain (avail : List Nat)
    (env : SwitchEnv) (s : HandlerState) :
    (s.pendingSwitch = true → 0 < s.activeRequestCount →
      tryExecutePendingSwitch avail env s = (0, s)) ∧
    (s.pendingSwitch = true → s.activeRequestCount = 1 → s.isAuthSwitching = false →
      (completeRequest avail env s).1 = 1 ∧
      (completeRequest avail env s).2.pendingSwitch = false ∧
      tryExecutePendingSwitch avail env (completeRequest avail env s).2 =
        (0, (completeRequest avail env s).2)) := by
  constructor
  · intro hp ha
    have : (s.activeRequestCount == 0) = false := by
      simpa using Nat.pos_iff_ne_zero.mp ha
    simp [tryExecutePendingSwitch, this]
  · intro hp ha hs
    simp [completeRequest, tryExecutePendingSwitch, hp, ha, hs]

/-- Witness for `graceful_switch_deferred_until_drain` at a concrete
state with two active requests (no rotation) and one active request
(exactly one rotation on completion). -/
theorem graceful_switch_deferred_until_drain_witness :
    tryExecutePendingSwitch [1, 2] ⟨true, true⟩ ⟨0, 2, true, false, false, 1⟩ =
      (0, ⟨0, 2, true, false, false, 1⟩) ∧
    (completeRequest [1, 2] ⟨true, true⟩ ⟨0, 1, true, false, false, 1⟩).1 = 1 :=
  ⟨(graceful_switch_deferred_until_drain [1, 2] ⟨true, true⟩ _).1 rfl (by decide),
   ((graceful_switch_deferred_until_drain [1, 2] ⟨true, true⟩ _).2 rfl rfl rfl).1⟩

/-- C6: `MessageQueue.close` marks the queue closed, rejects every
waiting consumer with the "Queue closed" error (which is distinct from
the "Queue timeout" error), makes every later `dequeue` call fail
immediately, and a second `close` changes nothing and rejects nobody. -/
theorem queue_close_spec (q : MessageQueue Nat) (rid : Nat) :
    (q.close).1.closed = true ∧
    (q.close).2 = q.waitingResolvers.map (fun r => (r, QueueErr.queueClosed)) ∧
    (∀ p ∈ (q.close).2, p.2 = QueueErr.queueClosed ∧ p.2 ≠ QueueErr.queueTimeout) ∧
    (q.close).1.dequeue rid = .failImmediately .queueIsClosed ∧
    (q.close).1.close = ((q.close).1, []) := by
  refine ⟨rfl, rfl, ?_, rfl, rfl⟩
  intro p hp
  rcases List.mem_map.mp hp with ⟨r, _, rfl⟩
  exact ⟨rfl, fun hcontra => QueueErr.noConfusion hcontra⟩

/-- Witness for `queue_close_spec`: a queue with one buffered message
and the waiting resolvers 8 and 9; closing rejects 8 and 9 once each
with "Queue closed", and that rejection is not the timeout error. -/
theorem queue_close_spec_witness :
    ((MessageQueue.mk [5] [8, 9] false : MessageQueue Nat).close).2 =
      [(8, QueueErr.queueClosed), (9, QueueErr.queueClosed)] ∧
    (8, QueueErr.queueClosed).2 ≠ QueueErr.queueTimeout :=
  ⟨(queue_close_spec (MessageQueue.mk [5] [8, 9] false) 0).2.1,
   ((queue_close_spec (MessageQueue.mk [5] [8, 9] false) 0).2.2.1
     (8, QueueErr.queueClosed) (by decide)).2⟩

/-- C9: the model-list handler leaves the whole rotation/concurrency
state (`usageCount`, `activeRequestCount`, `pendingSwitch`,
`isAuthSwitching`) untouched on every execution path, and its response
is computed identically whether or not a rotation is pending or in
progress. -/
theorem model_list_frame_spec (p : String → Option (List String))
    (env : ModelListEnv) (s : HandlerState) (b1 b2 : Bool) :
    (processModelListRequest p env s).1 = s ∧
    (processModelListRequest p env
        { s with pendingSwitch := b1, isAuthSwitching := b2 }).2 =
      (processModelListRequest p env s).2 := by
  obtain ⟨hc, he, ht, ch⟩ := env
  cases hc <;> cases he <;> cases ht <;>
    simp [processModelListRequest]

/-- C2 counterexample: from the idle state, with the backchannel
disconnected and recovery failing, `processRequest` reaches its
definitive 503 rejection only after having mutated
`activeRequestCount` (the trace records the intermediate state with the
counter incremented, held across the recovery suspension point), so the
rejection is not reached "without first mutating the shared
counters". -/
theorem admission_counter_mutation_counterexample :
    (processRequestAdmission 40 ⟨false, false, false⟩
        ⟨0, 0, false, false, false, 0⟩).outcome = .rejectRecoveryFailed ∧
    (processRequestAdmission 40 ⟨false, false, false⟩
        ⟨0, 0, false, false, false, 0⟩).outcome ≠ .admitted ∧
    ∃ t ∈ (processRequestAdmission 40 ⟨false, false, false⟩
        ⟨0, 0, false, false, false, 0⟩).trace,
      t.activeRequestCount ≠
        (⟨0, 0, false, false, false, 0⟩ : HandlerState).activeRequestCount := by
  refine ⟨rfl, by decide, ⟨⟨0, 1, false, false, false, 0⟩, ?_, by decide⟩⟩
  decide

/-- C2 amended: a rotation pending or in progress is rejected with the
503 "rotating" response before any state mutation in both handlers;
every other rejection of `processRequest` increments
`activeRequestCount` before its rule is evaluated and decrements it
back, so the definitive outcome leaves `usageCount` and
`activeRequestCount` at their pre-admission values; the chat handler
likewise restores `activeRequestCount` on its translation-failure
rejection, but that rejection leaves the usage counter incremented
(and possibly `pendingSwitch` newly set). -/
theorem admission_rejections_amended (switchOnUses : Nat) (env : AdmitEnv)
    (tok : Bool) (s : HandlerState) :
    ((s.pendingSwitch || s.isAuthSwitching) = true →
      processRequestAdmission switchOnUses env s = ⟨.rejectRotating, s, []⟩ ∧
      processOpenAIAdmission switchOnUses tok s = ⟨.rejectRotating, s, []⟩) ∧
    ((processRequestAdmission switchOnUses env s).outcome ≠ .admitted →
      (processRequestAdmission switchOnUses env s).final.usageCount = s.usageCount ∧
      (processRequestAdmission switchOnUses env s).final.activeRequestCount =
        s.activeRequestCount) ∧
    ((processOpenAIAdmission switchOnUses tok s).outcome ≠ .admitted →
      (processOpenAIAdmission switchOnUses tok s).final.activeRequestCount =
        s.activeRequestCount) ∧
    (0 < switchOnUses → s.pendingSwitch = false → s.isAuthSwitching = false →
      (processOpenAIAdmission switchOnUses false s).outcome = .rejectBadRequest ∧
      (processOpenAIAdmission switchOnUses false s).final.usageCount =
        s.usageCount + 1) := by
  refine ⟨?_, ?_, ?_, ?_⟩
  · intro h
    constructor <;> simp [processRequestAdmission, processOpenAIAdmission, h]
  · intro hrej
    obtain ⟨hc, hr, hg⟩ := env
    obtain ⟨u, a, ps, ias, isb, ci⟩ := s
    cases ps <;> cases ias <;> cases isb <;> cases hc <;> cases hr <;> cases hg <;>
      by_cases hsw : 0 < switchOnUses <;>
        simp_all [processRequestAdmission, processRequestAdmissionTail]
  · intro hrej
    obtain ⟨u, a, ps, ias, isb, ci⟩ := s
    cases ps <;> cases ias <;> cases tok <;>
      by_cases hsw : 0 < switchOnUses <;>
        simp_all [processOpenAIAdmission]
  · intro hpos hps has
    simp [processOpenAIAdmission, hps, has, hpos]

/-- Witness for the hypotheses of `admission_rejections_amended`, at
the "rotating" state, the failing-recovery environment, and the
translation-failure case. -/
theorem admission_rejections_amended_witness :
    processRequestAdmission 40 ⟨true, true, true⟩ ⟨0, 0, true, false, false, 0⟩ =
      ⟨.rejectRotating, ⟨0, 0, true, false, false, 0⟩, []⟩ ∧
    (processRequestAdmission 40 ⟨false, false, false⟩
        ⟨3, 5, false, false, false, 0⟩).final.activeRequestCount = 5 ∧
    (processOpenAIAdmission 40 false ⟨3, 5, false, false, false, 0⟩).final.usageCount = 4 :=
  ⟨((admission_rejections_amended 40 ⟨true, true, true⟩ true
      ⟨0, 0, true, false, false, 0⟩).1 rfl).1,
   ((admission_rejections_amended 40 ⟨false, false, false⟩ true
      ⟨3, 5, false, false, false, 0⟩).2.1 (by decide)).2,
   ((admission_rejections_amended 40 ⟨false, false, false⟩ false
      ⟨3, 5, false, false, false, 0⟩).2.2.2 (by decide) rfl rfl).2⟩

/-- C3: when the first upstream event is an error whose status is in
the immediate-switch set and the client response is still open, the
handler reports the error to the client first — a 503 JSON body when
headers are unsent, an in-stream error chunk followed by `end`
otherwise — leaving the response ended, and the single
`_switchToNextAuth` call comes strictly after all of the client-facing
actions, whatever the rest of the handler state (in particular for any
number of other in-flight requests). -/
theorem immediate_switch_responds_before_rotation (codes avail : List Nat)
    (env : SwitchEnv) (status : Nat) (res : ResState) (s : HandlerState)
    (hmem : status ∈ codes) (hopen : res.writableEnded = false) :
    (handleRequestFailureAndSwitch codes avail env status res s).1 = true ∧
    (handleRequestFailureAndSwitch codes avail env status res s).2.1 =
      (if res.headersSent then [.writeErrorChunk, .endStream]
       else [.respond503Body]) ++ [FailAction.rotateCredential] ∧
    (handleRequestFailureAndSwitch codes avail env status res s).2.2.1.writableEnded = true ∧
    (handleRequestFailureAndSwitch codes avail env status res s).2.2.2 =
      (switchToNextAuth avail env s).2.1 := by
  obtain ⟨hs, we⟩ := res
  subst hopen
  cases hs <;> simp [handleRequestFailureAndSwitch, sendErrorResponse, hmem]

/-- Witness for `immediate_switch_responds_before_rotation`: status 429
(in the default immediate-switch set), once with headers unsent and
once with headers already sent. -/
theorem immediate_switch_responds_before_rotation_witness :
    (handleRequestFailureAndSwitch [401, 403, 429] [1, 2] ⟨true, true⟩ 429
        ⟨false, false⟩ ⟨0, 3, false, false, false, 1⟩).2.1 =
      [FailAction.respond503Body, FailAction.rotateCredential] ∧
    (handleRequestFailureAndSwitch [401, 403, 429] [1, 2] ⟨true, true⟩ 429
        ⟨true, false⟩ ⟨0, 3, false, false, false, 1⟩).2.1 =
      [FailAction.writeErrorChunk, FailAction.endStream, FailAction.rotateCredential] :=
  ⟨(immediate_switch_responds_before_rotation [401, 403, 429] [1, 2] ⟨true, true⟩ 429
      ⟨false, false⟩ ⟨0, 3, false, false, false, 1⟩ (by decide) rfl).2.1,
   (immediate_switch_responds_before_rotation [401, 403, 429] [1, 2] ⟨true, true⟩ 429
      ⟨true, false⟩ ⟨0, 3, false, false, false, 1⟩ (by decide) rfl).2.1⟩

/-- C5: outside the single-flight guard, `_switchToNextAuth` first
attempts a session on `_getNextAuthIndex` of the current index; on
success it resets the usage counter and makes that index current; on
failure it attempts the previous credential, and a successful fallback
resets the usage counter, keeps the previous index current and reports
the rolled-back (non-success, fallback) outcome; when the fallback also
fails the fatal outcome propagates, with the usage counter untouched. -/
theorem switch_to_next_auth_spec (avail : List Nat) (env : SwitchEnv)
    (s : HandlerState) (h : s.isAuthSwitching = false) :
    ((switchToNextAuth avail env s).2.2.head? =
      some (.attemptSession (getNextAuthIndex avail s.currentAuthIndex))) ∧
    (∀ n, getNextAuthIndex avail s.currentAuthIndex = some n → env.switchOk = true →
      (switchToNextAuth avail env s).1 = .success n ∧
      (switchToNextAuth avail env s).2.1.usageCount = 0 ∧
      (switchToNextAuth avail env s).2.1.currentAuthIndex = n) ∧
    (env.switchOk = false → env.fallbackOk = true →
      (switchToNextAuth avail env s).1 = .rolledBack s.currentAuthIndex ∧
      (switchToNextAuth avail env s).2.1.usageCount = 0 ∧
      (switchToNextAuth avail env s).2.1.currentAuthIndex = s.currentAuthIndex ∧
      (switchToNextAuth avail env s).2.2 =
        [.attemptSession (getNextAuthIndex avail s.currentAuthIndex),
         .attemptFallbackSession s.currentAuthIndex]) ∧
    (env.switchOk = false → env.fallbackOk = false →
      (switchToNextAuth avail env s).1 = .fatal ∧
      (switchToNextAuth avail env s).2.1.currentAuthIndex = s.currentAuthIndex ∧
      (switchToNextAuth avail env s).2.1.usageCount = s.usageCount) := by
  obtain ⟨swOk, fbOk⟩ := env
  cases hnext : getNextAuthIndex avail s.currentAuthIndex <;>
    cases swOk <;> cases fbOk <;>
      simp [switchToNextAuth, h, hnext]

/-- Witness for `switch_to_next_auth_spec`: the pool {1,3,7} at current
index 3, for the success, rolled-back and fatal environments. -/
theorem switch_to_next_auth_spec_witness :
    (switchToNextAuth [1, 3, 7] ⟨true, true⟩ ⟨9, 0, false, false, false, 3⟩).1 =
      .success 7 ∧
    (switchToNextAuth [1, 3, 7] ⟨false, true⟩ ⟨9, 0, false, false, false, 3⟩).1 =
      .rolledBack 3 ∧
    (switchToNextAuth [1, 3, 7] ⟨false, false⟩ ⟨9, 0, false, false, false, 3⟩).1 =
      .fatal :=
  ⟨((switch_to_next_auth_spec [1, 3, 7] ⟨true, true⟩
      ⟨9, 0, false, false, false, 3⟩ rfl).2.1 7 (by decide) rfl).1,
   ((switch_to_next_auth_spec [1, 3, 7] ⟨false, true⟩
      ⟨9, 0, false, false, false, 3⟩ rfl).2.2.1 rfl rfl).1,
   ((switch_to_next_auth_spec [1, 3, 7] ⟨false, false⟩
      ⟨9, 0, false, false, false, 3⟩ rfl).2.2.2 rfl rfl).1⟩

/-- C7: a disconnect arms the grace timer for 5000 ms; adding a
connection while the timer is pending cancels the cleanup and leaves
every queue untouched (so a subsequent timer expiry does nothing);
expiry of a still-armed timer closes every queue in the table exactly
once — each waiter of each queue receives exactly one "Queue closed"
rejection — clears the table, raises the `connectionLost` signal, and
cannot run a second time. -/
theorem reconnect_grace_window_spec (r : ConnectionRegistry Nat) (now tFire : Nat) :
    ((r.removeConnection now).graceDeadline = some (now + 5000)) ∧
    (∀ d, r.graceDeadline = some d →
      (r.addConnection).graceDeadline = none ∧
      (r.addConnection).messageQueues = r.messageQueues ∧
      (r.addConnection).fireGraceTimer tFire = (r.addConnection, [], false)) ∧
    (∀ d, r.graceDeadline = some d → d ≤ tFire →
      (r.fireGraceTimer tFire).1.messageQueues = [] ∧
      (r.fireGraceTimer tFire).2.2 = true ∧
      (r.fireGraceTimer tFire).2.1 =
        r.messageQueues.flatMap (fun iq =>
          iq.2.waitingResolvers.map (fun rid => (iq.1, rid, QueueErr.queueClosed))) ∧
      (∀ p ∈ (r.fireGraceTimer tFire).2.1, p.2.2 = QueueErr.queueClosed) ∧
      (r.fireGraceTimer tFire).1.fireGraceTimer (tFire + 1) =
        ((r.fireGraceTimer tFire).1, [], false)) := by
  refine ⟨rfl, ?_, ?_⟩
  · intro d hd
    refine ⟨rfl, rfl, ?_⟩
    simp [ConnectionRegistry.addConnection, ConnectionRegistry.fireGraceTimer]
  · intro d hd hle
    refine ⟨?_, ?_, ?_, ?_, ?_⟩
    · simp [ConnectionRegistry.fireGraceTimer, hd, hle]
    · simp [ConnectionRegistry.fireGraceTimer, hd, hle]
    · simp only [ConnectionRegistry.fireGraceTimer, hd, if_pos hle]
      congr 1
      funext iq
      simp [MessageQueue.close, List.map_map, Function.comp_def]
    · intro p hmem
      simp only [ConnectionRegistry.fireGraceTimer, hd, if_pos hle] at hmem
      rcases List.mem_flatMap.mp hmem with ⟨iq, _, hq⟩
      rcases List.mem_map.mp hq with ⟨pr, hpr, heq⟩
      simp only [MessageQueue.close] at hpr
      rcases List.mem_map.mp hpr with ⟨w, _, hw⟩
      cases hw
      cases heq
      rfl
    · simp [ConnectionRegistry.fireGraceTimer, hd, hle]

/-- Witness for `reconnect_grace_window_spec`: one queue with one
waiter; a reconnect 1 ms after the disconnect closes nothing, while an
expiry 5000 ms after the disconnect rejects the waiter once with
"Queue closed" and raises `connectionLost`. -/
theorem reconnect_grace_window_spec_witness :
    ((ConnectionRegistry.mk 0 [(7, ⟨[], [42], false⟩)] (some 5000) : ConnectionRegistry Nat).addConnection).fireGraceTimer 9999 =
      ((ConnectionRegistry.mk 0 [(7, ⟨[], [42], false⟩)] (some 5000)).addConnection, [], false) ∧
    ((ConnectionRegistry.mk 0 [(7, ⟨[], [42], false⟩)] (some 5000) : ConnectionRegistry Nat).fireGraceTimer 5000).2.1 =
      [(7, 42, QueueErr.queueClosed)] :=
  ⟨((reconnect_grace_window_spec (ConnectionRegistry.mk 0 [(7, ⟨[], [42], false⟩)] (some 5000)) 0 9999).2.1
      5000 rfl).2.2,
   by
    have h := ((reconnect_grace_window_spec
      (ConnectionRegistry.mk 0 [(7, ⟨[], [42], false⟩)] (some 5000)) 0 5000).2.2
      5000 rfl (by decide)).2.2.1
    simpa using h⟩

/-- C8 counterexample: a single conversation message with role "tool"
whose content holds an `image_url` part with a non-image data URI.
The claim predicts the role "tool" passed through and an inline-binary
part with mime "text/plain"; the code maps the role to "user" and
drops the part (the regex only admits `image/` mime types). -/
theorem translate_role_counterexample :
    (translateOpenAIToGoogle false
        [⟨"tool", .parts [.imageUrlPart "data:text/plain;base64,QUJD"]⟩]).contents =
      [⟨"user", []⟩] ∧
    ("user" : String) ≠ "tool" ∧
    GooglePart.inlineData "text/plain" "QUJD" ∉
      ((translateOpenAIToGoogle false
        [⟨"tool", .parts [.imageUrlPart "data:text/plain;base64,QUJD"]⟩]).contents.flatMap
          (fun c => c.parts)) := by
  refine ⟨?_, by decide, ?_⟩ <;> decide

/-- C8 amended: the translation newline-joins all system messages into
the system instruction; maps role assistant to model and every other
non-system role to user (roles are not passed through); passes string
content as a single text part; in list content passes text parts
through and decodes every image part whose URL matches the image-typed
data-URI pattern `data:image/…;base64,…` into an inline-binary part
with the extracted mime type and payload, skipping the rest; and
forces the BLOCK_NONE threshold on all four safety categories. -/
theorem translate_openai_amended (enableR : Bool) (msgs : List OpenAIMessage) :
    ((msgs.filter (fun m => m.role == "system")).length = 0 →
      (translateOpenAIToGoogle enableR msgs).systemInstruction = none) ∧
    (0 < (msgs.filter (fun m => m.role == "system")).length →
      (translateOpenAIToGoogle enableR msgs).systemInstruction =
        some [GooglePart.text (jsJoin "\n"
          ((msgs.filter (fun m => m.role == "system")).map
            (fun m => jsContentToString m.content)))]) ∧
    ((translateOpenAIToGoogle enableR msgs).contents =
      (msgs.filter (fun m => !(m.role == "system"))).map (fun m =>
        ⟨if m.role = "assistant" then "model" else "user",
         translateContent m.content⟩)) ∧
    (∀ c ∈ (translateOpenAIToGoogle enableR msgs).contents,
      c.role = "model" ∨ c.role = "user") ∧
    (∀ s : String, translateContent (.str s) = [.text s]) ∧
    (∀ (xs ys : List OpenAIPart) (t : String),
      translateContent (.parts (xs ++ .textPart t :: ys)) =
        translateContent (.parts xs) ++ .text t :: translateContent (.parts ys)) ∧
    (∀ (xs ys : List OpenAIPart) (u mime payload : String),
      parseImageDataUrl u = some (mime, payload) →
      translateContent (.parts (xs ++ .imageUrlPart u :: ys)) =
        translateContent (.parts xs) ++
          .inlineData mime payload :: translateContent (.parts ys)) ∧
    (∀ ss ∈ (translateOpenAIToGoogle enableR msgs).safetySettings,
      ss.threshold = "BLOCK_NONE") ∧
    ((translateOpenAIToGoogle enableR msgs).safetySettings.map (fun ss => ss.category) =
      ["HARM_CATEGORY_HARASSMENT", "HARM_CATEGORY_HATE_SPEECH",
       "HARM_CATEGORY_SEXUALLY_EXPLICIT", "HARM_CATEGORY_DANGEROUS_CONTENT"]) := by
  refine ⟨?_, ?_, rfl, ?_, fun s => rfl, ?_, ?_, ?_, rfl⟩
  · intro h
    simp [translateOpenAIToGoogle, h]
  · intro h
    simp [translateOpenAIToGoogle, h]
  · intro c hc
    simp only [translateOpenAIToGoogle, List.mem_map] at hc
    rcases hc with ⟨m, _, rfl⟩
    by_cases hrole : m.role = "assistant" <;> simp [hrole]
  · intro xs ys t
    simp [translateContent, List.filterMap_append, translatePart]
  · intro xs ys u mime payload hparse
    simp [translateContent, List.filterMap_append, translatePart, hparse]
  · intro ss hss
    have hss2 : ss ∈ [SafetySetting.mk "HARM_CATEGORY_HARASSMENT" "BLOCK_NONE",
        SafetySetting.mk "HARM_CATEGORY_HATE_SPEECH" "BLOCK_NONE",
        SafetySetting.mk "HARM_CATEGORY_SEXUALLY_EXPLICIT" "BLOCK_NONE",
        SafetySetting.mk "HARM_CATEGORY_DANGEROUS_CONTENT" "BLOCK_NONE"] := hss
    simp only [List.mem_cons, List.not_mem_nil, or_false] at hss2
    rcases hss2 with rfl | rfl | rfl | rfl <;> rfl

/-- Witness for `translate_openai_amended`: a concrete body with one
system message, and a concrete image data URI decoded between two text
parts. -/
theorem translate_openai_amended_witness :
    (translateOpenAIToGoogle true
        [⟨"system", .str "sys"⟩, ⟨"user", .str "hi"⟩]).systemInstruction =
      some [GooglePart.text "sys"] ∧
    translateContent (.parts ([OpenAIPart.textPart "a"] ++
        .imageUrlPart "data:image/png;base64,QUJD" :: [OpenAIPart.textPart "b"])) =
      translateContent (.parts [OpenAIPart.textPart "a"]) ++
        .inlineData "image/png" "QUJD" ::
          translateContent (.parts [OpenAIPart.textPart "b"]) :=
  ⟨by
    have h := (translate_openai_amended true
      [⟨"system", .str "sys"⟩, ⟨"user", .str "hi"⟩]).2.1 (by decide)
    simpa using h,
   (translate_openai_amended true []).2.2.2.2.2.2.1
     [OpenAIPart.textPart "a"] [OpenAIPart.textPart "b"]
     "data:image/png;base64,QUJD" "image/png" "QUJD" (by decide)⟩

/-- Helper: the loaded key list is never empty — either the cleaned
configured keys or the default singleton. -/
theorem loadApiKeys_length_pos (e : Option String) : 0 < (loadApiKeys e).1.length := by
  cases e with
  | none => decide
  | some sEnv =>
    simp only [loadApiKeys]
    split
    · next h => simpa using h
    · decide

/-- C10: with `API_KEYS` unset, or holding only entries that are blank
after trimming, the key list collapses to the single default key
"123456"; the loaded key list is never empty, so the middleware never
takes its skip-the-check branch; and any request whose presented key
(extracted through the accepted channels in priority order) is absent
or not in the configured list is answered with 401. -/
theorem default_api_key_spec :
    (loadApiKeys none = (["123456"], false)) ∧
    (∀ sEnv : String,
      ((jsSplit sEnv ",").map jsTrim).filter (fun k => !(k == "")) = [] →
      loadApiKeys (some sEnv) = (["123456"], false)) ∧
    (∀ e : Option String, (loadApiKeys e).1.length ≠ 0) ∧
    (∀ (e : Option String) (r : AuthReq),
      authMiddleware (loadApiKeys e).1 r ≠ .passThroughNoKeys) ∧
    (∀ (e : Option String) (r : AuthReq),
      (∀ k, extractClientKey r = some k → k ∉ (loadApiKeys e).1) →
      authMiddleware (loadApiKeys e).1 r = .denied401) := by
  refine ⟨rfl, ?_, ?_, ?_, ?_⟩
  · intro sEnv h
    simp [loadApiKeys, h]
  · intro e
    exact Nat.pos_iff_ne_zero.mp (loadApiKeys_length_pos e)
  · intro e r
    have hne := Nat.pos_iff_ne_zero.mp (loadApiKeys_length_pos e)
    simp only [authMiddleware, if_neg hne]
    cases hk : extractClientKey r with
    | none => simp
    | some k => by_cases hmem : k ∈ (loadApiKeys e).1 <;> simp [hmem]
  · intro e r hmiss
    have hne := Nat.pos_iff_ne_zero.mp (loadApiKeys_length_pos e)
    simp only [authMiddleware, if_neg hne]
    cases hk : extractClientKey r with
    | none => rfl
    | some k =>
      have := hmiss k hk
      simp [this]

/-- Witness for `default_api_key_spec`: an `API_KEYS` value of blanks
collapses to the default key, and a request with no key at all under
the default configuration is rejected with 401. -/
theorem default_api_key_spec_witness :
    loadApiKeys (some " , ,") = (["123456"], false) ∧
    authMiddleware (loadApiKeys none).1 ⟨none, none, none, none⟩ = .denied401 :=
  ⟨default_api_key_spec.2.1 " , ," (by decide),
   default_api_key_spec.2.2.2.2 none ⟨none, none, none, none⟩
     (fun k hk => Option.noConfusion hk)⟩

end Build2api
